import Mathlib

/-!
Verification development for the lyricsmaster provider engine.

The definitions below are a shallow embedding of the Python modules
lyricsmaster/models.py, lyricsmaster/providers.py and lyricsmaster/utils.py:
pure functions become Lean functions, code that can raise returns
Except PyError, fetches are modelled by an explicit session function, and
the gevent worker pool is modelled by an explicit completion schedule.
-/

/-- The Python exception kinds raised by the code paths modelled here. -/
inductive PyError where
| valueError
| indexError
| attributeError
| typeError
| unboundLocalError
| transportError
deriving DecidableEq, Repr

/-- models.Song: value container built per discovered song link. -/
structure Song where
  title : String
  album : String
  artist : String
  lyrics : Option String
  writers : Option String
deriving DecidableEq, Repr

/-- models.Album: title, artist, release date and the ordered song list,
where a none entry stands for a song link that did not resolve.  The idx
field embeds the mutable iterator cursor field of the Python class. -/
structure Album where
  idx : Nat
  title : String
  artist : String
  release_date : String
  songs : List (Option Song)
deriving DecidableEq, Repr

/-- Album.__init__(title, artist, songs, release_date): the cursor starts at 0. -/
def mkAlbum (title : String) (artist : String) (songs : List (Option Song)) (release_date : String) : Album :=
  ⟨0, title, artist, release_date, songs⟩

/-- models.Discography: artist name and the ordered album list, with the
embedded iterator cursor. -/
structure Discography where
  idx : Nat
  artist : String
  albums : List Album
deriving DecidableEq, Repr

/-- Discography.__init__(artist, albums). -/
def mkDiscography (artist : String) (albums : List Album) : Discography :=
  ⟨0, artist, albums⟩

/-- One step of the shared __next__ protocol of Album and Discography:
the cursor is incremented, then the element at the previous cursor value is
read; an IndexError resets the cursor and signals StopIteration (none). -/
def pyNext {α : Type} (xs : List α) (idx : Nat) : Option (α × Nat) :=
  match xs.get? ((idx + 1) - 1) with
  | some s => some (s, idx + 1)
  | none => none

/-- Driving the __next__ protocol until StopIteration; the fuel argument
bounds the loop and is instantiated with enough steps to drain the list. -/
def iterLoop {α : Type} (xs : List α) : Nat → Nat → List α
  | 0, _ => []
  | fuel + 1, idx =>
    match pyNext xs idx with
    | some (s, idx2) => s :: iterLoop xs fuel idx2
    | none => []

/-- Forward iteration over an Album object (for song in album). -/
def albumIter (a : Album) : List (Option Song) :=
  iterLoop a.songs (a.songs.length + 1) a.idx

/-- Album.__reversed__: returns reversed(self.songs). -/
def albumReversed (a : Album) : List (Option Song) :=
  a.songs.reverse

/-- Forward iteration over a Discography object (for album in discography). -/
def discIter (d : Discography) : List Album :=
  iterLoop d.albums (d.albums.length + 1) d.idx

/-- Discography.__reversed__: returns reversed(self.albums). -/
def discReversed (d : Discography) : List Album :=
  d.albums.reverse

/-- A Python value that could be assigned into a list slot: the albums list
of a Discography is heterogeneous at runtime, so indexed assignment is
modelled over this sum. -/
inductive PyVal where
| songV : Song → PyVal
| albumV : Album → PyVal
deriving DecidableEq, Repr

/-- Python list item assignment xs[key] = v: negative keys count from the
end and an out of range key raises IndexError. -/
def pyListSet (xs : List PyVal) (key : Int) (v : PyVal) : Except PyError (List PyVal) :=
  let k : Int := if key < 0 then key + (xs.length : Int) else key
  if 0 ≤ k ∧ k.toNat < xs.length then .ok (xs.set k.toNat v) else .error .indexError

/-- Discography.__setitem__(key, value): raises TypeError unless value is a
Song instance, otherwise writes value into self.albums[key].  The result is
the outcome paired with the albums list after the call (as raw values);
raising happens before any write, so on error the list is unchanged. -/
def discSetitem (d : Discography) (key : Int) (value : PyVal) : Except PyError Unit × List PyVal :=
  match value with
  | .albumV _ => (.error .typeError, d.albums.map PyVal.albumV)
  | .songV _ =>
    match pyListSet (d.albums.map PyVal.albumV) key value with
    | .ok l => (.ok (), l)
    | .error e => (.error e, d.albums.map PyVal.albumV)

theorem iterLoop_eq_drop {α : Type} (xs : List α) :
    ∀ (fuel idx : Nat), xs.length ≤ idx + fuel → iterLoop xs fuel idx = xs.drop idx := by
  intro fuel
  induction fuel with
  | zero =>
    intro idx h
    simp only [iterLoop]
    exact (List.drop_eq_nil_of_le (by omega)).symm
  | succ n ih =>
    intro idx h
    simp only [iterLoop, pyNext, Nat.add_sub_cancel]
    cases hg : xs.get? idx with
    | none =>
      have hlen : xs.length ≤ idx := by
        by_contra hc
        push_neg at hc
        rw [List.get?_eq_get hc] at hg
        exact Option.noConfusion hg
      exact (List.drop_eq_nil_of_le hlen).symm
    | some s =>
      have hlt : idx < xs.length := by
        by_contra hc
        push_neg at hc
        rw [List.get?_eq_none.mpr hc] at hg
        exact Option.noConfusion hg
      show s :: iterLoop xs n (idx + 1) = List.drop idx xs
      rw [ih (idx + 1) (by omega)]
      rw [List.drop_eq_getElem_cons hlt]
      have : xs[idx] = s := by
        rw [List.get?_eq_get hlt] at hg
        exact Option.some.inj hg
      rw [this]

/-- Python str.lower applied character by character. -/
def pyLower (s : String) : String :=
  ⟨s.data.map Char.toLower⟩

/-- The Python membership test needle in haystack on strings: the needle
occurs as a contiguous substring of the haystack. -/
def pyIn (needle haystack : String) : Prop :=
  needle.data <:+: haystack.data

instance (needle haystack : String) : Decidable (pyIn needle haystack) := by
  unfold pyIn
  infer_instance

/-- Boolean form of pyIn, used where the code filters. -/
def pyInB (needle haystack : String) : Bool :=
  decide (pyIn needle haystack)

/-- re.findall of the pattern backslash-lparen [^()]+ backslash-rparen over
the text, as the equivalent left to right scan: a capture opens at a lparen,
restarts at a nested lparen, and is emitted at the next rparen when it is
nonempty; matches do not overlap.  The accumulator holds the pending capture
in reverse. -/
def findallParen : List Char → Option (List Char) → List String
  | [], _ => []
  | c :: rest, none =>
    if c = '(' then findallParen rest (some []) else findallParen rest none
  | c :: rest, some acc =>
    if c = ')' then
      if acc.isEmpty then findallParen rest none
      else String.mk acc.reverse :: findallParen rest none
    else if c = '(' then findallParen rest (some [])
    else findallParen rest (some (c :: acc))

/-- re.findall of the pattern dquote [^"]* dquote over the text: captures
open and close at double quotes and may be empty; matches do not overlap. -/
def findallQuoted : List Char → Option (List Char) → List String
  | [], _ => []
  | c :: rest, none =>
    if c = '"' then findallQuoted rest (some []) else findallQuoted rest none
  | c :: rest, some acc =>
    if c = '"' then String.mk acc.reverse :: findallQuoted rest none
    else findallQuoted rest (some (c :: acc))

/-- Helper for Python str.index: scans for the first offset where the
needle is a prefix of the remaining text; ValueError when there is none. -/
def strIndexCore (sub : List Char) : Nat → List Char → Except PyError Nat
  | i, [] => if sub.isPrefixOf ([] : List Char) then .ok i else .error .valueError
  | i, c :: r => if sub.isPrefixOf (c :: r) then .ok i else strIndexCore sub (i + 1) r

/-- Python str.index(sub): first occurrence or ValueError. -/
def pyStrIndex (s sub : String) : Except PyError Nat :=
  strIndexCore sub.data 0 s.data

/-- Python slice s[:i]: a negative bound counts from the end of the string. -/
def pySliceTo (s : String) (i : Int) : String :=
  if i < 0 then String.mk (s.data.take ((s.data.length : Int) + i).toNat)
  else String.mk (s.data.take i.toNat)

/-- An album headline tag as LyricWiki.get_album_infos reads it: only its
visible text matters. -/
structure WikiTag where
  text : String
deriving DecidableEq, Repr

/-- LyricWiki.get_album_infos: inside a try block the index of the first
space-lparen is computed (str.index raises ValueError when absent) and the
first parenthesised group is read (indexing an empty findall result raises
IndexError, which the except ValueError clause does not catch); on
ValueError the index falls back to -1 and the date to Unknown; the title is
the text sliced up to the index. -/
def wiki_get_album_infos (tag : WikiTag) : Except PyError (String × String) :=
  let tried : Except PyError (Int × String) :=
    match pyStrIndex tag.text (" (") with
    | .error e => .error e
    | .ok i =>
      match findallParen tag.text.data none with
      | [] => .error .indexError
      | r :: _ => .ok ((i : Int), r)
  match tried with
  | .ok (i, release_date) => .ok (pySliceTo tag.text i, release_date)
  | .error .valueError => .ok (pySliceTo tag.text (-1), "Unknown")
  | .error e => .error e

/-- An album block as AzLyrics.get_album_infos reads it: the text of the
inner div of class album when that div exists, and the text of the whole
block. -/
structure AzTag where
  albumDivText : Option String
  text : String
deriving DecidableEq, Repr

/-- AzLyrics.get_album_infos: reading .text of a missing album div raises
AttributeError; the title is the first double-quoted group of the div text
(IndexError when there is none); the release date is the first
parenthesised group of the block text, guarded by an except ValueError
clause that never fires because indexing an empty findall result raises
IndexError, which therefore propagates. -/
def az_get_album_infos (tag : AzTag) : Except PyError (String × String) :=
  match tag.albumDivText with
  | none => .error .attributeError
  | some album_infos =>
    match findallQuoted album_infos.data none with
    | [] => .error .indexError
    | album_title :: _ =>
      let tried : Except PyError String :=
        match findallParen tag.text.data none with
        | [] => .error .indexError
        | r :: _ => .ok r
      match tried with
      | .ok release_date => .ok (album_title, release_date)
      | .error .valueError => .ok (album_title, "Unknown")
      | .error e => .error e

/-- A fetched HTTP response; only its body matters to the engine. -/
structure Response where
  data : String
deriving DecidableEq, Repr

/-- The underlying transport for one snapshot: what self.session.request
returns or raises for each url. -/
abbrev Session : Type := String → Except PyError Response

/-- utils.TorController: the collaborator configuration the engine reads. -/
structure TorController where
  ip : String
  socksport : Nat
  controlport : Option Nat
  password : String
deriving DecidableEq, Repr

/-- LyricsProvider.get_page: wraps the transport in try/except Exception,
converting any raised error into a None return after printing a warning. -/
def get_page (session : Session) (url : String) : Except PyError (Option Response) :=
  match session url with
  | .ok r => .ok (some r)
  | .error _ => .ok none

/-- A song link tag: its visible text and href attribute. -/
structure Link where
  text : String
  href : String
deriving DecidableEq, Repr

/-- The source adapter contract (the abstract methods of LyricsProvider),
over an opaque album marker type.  create_song folds the fetch and the
extraction of one song into the snapshot, returning none for a dead link,
a missing page or a failed fetch. -/
structure Adapter (μ : Type) where
  clean_string : String → String
  make_artist_url : String → Option String
  has_artist : String → Bool
  get_albums : String → List μ
  get_album_infos : μ → Except PyError (String × String)
  get_songs : μ → List Link
  create_song : Link → String → String → Option Song

/-- LyricsProvider.get_artist_page: cleans the name, builds the url
(None means not found), fetches it and reads .data on the result of
get_page - when get_page returned None that attribute access raises
AttributeError - then applies the artist presence predicate. -/
def get_artist_page {μ : Type} (A : Adapter μ) (session : Session) (artist : String) : Except PyError (Option String) :=
  let artist := A.clean_string artist
  match A.make_artist_url artist with
  | none => .ok none
  | some url =>
    match get_page session url with
    | .error e => .error e
    | .ok none => .error .attributeError
    | .ok (some r) =>
      let raw_html := r.data
      if A.has_artist raw_html then .ok (some raw_html) else .ok none

/-- The song link list of one album after the optional song filter, as the
comprehension over self.get_songs(elmt) with the case insensitive
substring test on the visible link text. -/
def filteredSongLinks {μ : Type} (A : Adapter μ) (song : Option String) (m : μ) : List Link :=
  match song with
  | none => A.get_songs m
  | some f => (A.get_songs m).filter (fun link => pyInB (pyLower f) (pyLower link.text))

/-- The album filter comprehension of get_lyrics: keeps the markers whose
extracted title contains the filter case insensitively; an error raised by
get_album_infos inside the comprehension propagates. -/
def filterAlbums {μ : Type} (A : Adapter μ) (album : String) : List μ → Except PyError (List μ)
  | [] => .ok []
  | m :: rest =>
    match A.get_album_infos m with
    | .error e => .error e
    | .ok (t, _) =>
      match filterAlbums A album rest with
      | .error e => .error e
      | .ok kept => .ok (if pyInB (pyLower album) (pyLower t) then m :: kept else kept)

/-- One completion event of the worker pool: greenlet i finishes and stores
its value in its own slot.  Executing a schedule (an arbitrary completion
order) builds the slot store. -/
def execSched (f : Link → Option Song) (links : List Link) : List Nat → (Nat → Option (Option Song)) → (Nat → Option (Option Song))
  | [], st => st
  | i :: rest, st =>
    execSched f links rest (fun j => if j = i then (links.get? i).map f else st j)

/-- Reading the spawned greenlets in spawn order after pool.join, as the
comprehension [song.value for song in results]; a slot never filled reads
as None. -/
def gatherPool (st : Nat → Option (Option Song)) (n : Nat) : List (Option Song) :=
  (List.range n).map (fun i => (st i).getD none)

/-- The pool.spawn / pool.join / gather sequence of get_lyrics for one
album: one greenlet per link, executed in the order given by the schedule,
results collected in spawn order. -/
def poolMap (f : Link → Option Song) (links : List Link) (sched : List Nat) : List (Option Song) :=
  gatherPool (execSched f links sched (fun _ => none)) links.length

/-- The observable effects of one get_lyrics run that the circuit policy
speaks about. -/
inductive Event where
| rotate
| newSession
| dispatchPool : String → Nat → Event
deriving DecidableEq, Repr

/-- The per-album loop of LyricsProvider.get_lyrics (providers.py lines
171-193).  The Option String argument is the current binding of the local
variable album_title: the except ValueError handler prints it, which
raises UnboundLocalError when no earlier iteration bound it; any other
extraction error propagates.  When a tor controller with a configured
control channel is active the circuit is rotated and the session rebuilt
before the dispatch of the album; the dispatch always goes through the
worker pool.  The Nat argument counts iterations to index the schedule. -/
def get_lyrics_albums {μ : Type} (A : Adapter μ) (tor_controller : Option TorController) (sched : Nat → List Nat) (artist : String) (song : Option String) : List μ → Nat → Option String → Except PyError (List Album × List Event)
  | [], _, _ => .ok ([], [])
  | m :: rest, k, bound =>
    match A.get_album_infos m with
    | .error .valueError =>
      match bound with
      | none => .error .unboundLocalError
      | some _ => get_lyrics_albums A tor_controller sched artist song rest (k + 1) bound
    | .error e => .error e
    | .ok (album_title, release_date) =>
      let song_links := filteredSongLinks A song m
      let ev : List Event :=
        match tor_controller with
        | some tc =>
          match tc.controlport with
          | some _ => [Event.rotate, Event.newSession]
          | none => []
        | none => []
      let songs := poolMap (fun link => A.create_song link artist album_title) song_links (sched k)
      match get_lyrics_albums A tor_controller sched artist song rest (k + 1) (some album_title) with
      | .error e => .error e
      | .ok (albs, tr) =>
        .ok (mkAlbum album_title artist songs release_date :: albs,
             ev ++ Event.dispatchPool album_title song_links.length :: tr)

/-- LyricsProvider.get_lyrics(artist, album, song): resolves the artist
page (None result means artist not found), enumerates and optionally
filters the album markers, then runs the per-album loop; the returned
value pairs the Discography with the trace of circuit and pool events. -/
def get_lyrics {μ : Type} (A : Adapter μ) (tor_controller : Option TorController) (session : Session) (sched : Nat → List Nat) (artist : String) (album song : Option String) : Except PyError (Option (Discography × List Event)) :=
  match get_artist_page A session artist with
  | .error e => .error e
  | .ok none => .ok none
  | .ok (some raw_html) =>
    let albums := A.get_albums raw_html
    let filtered : Except PyError (List μ) :=
      match album with
      | none => .ok albums
      | some f => filterAlbums A f albums
    match filtered with
    | .error e => .error e
    | .ok kept =>
      match get_lyrics_albums A tor_controller sched artist song kept 0 none with
      | .error e => .error e
      | .ok (album_objects, tr) => .ok (some (mkDiscography artist album_objects, tr))

/-- A schedule family is adequate when every batch schedule contains every
slot index a dispatched album could use: the model of pool.join, which
waits until every spawned greenlet has finished. -/
def SchedOK {μ : Type} (A : Adapter μ) (song : Option String) (sched : Nat → List Nat) : Prop :=
  ∀ (m : μ) (k i : Nat), i < (filteredSongLinks A song m).length → i ∈ sched k

theorem execSched_apply (f : Link → Option Song) (links : List Link) :
    ∀ (sched : List Nat) (st : Nat → Option (Option Song)) (j : Nat),
      execSched f links sched st j =
        if j ∈ sched then (links.get? j).map f else st j := by
  intro sched
  induction sched with
  | nil =>
    intro st j
    simp [execSched]
  | cons i rest ih =>
    intro st j
    simp only [execSched]
    rw [ih]
    by_cases hr : j ∈ rest
    · simp [hr, List.mem_cons]
    · by_cases hi : j = i
      · simp [hr, hi, List.mem_cons]
      · simp [hr, hi, List.mem_cons]

theorem poolMap_eq_map (f : Link → Option Song) (links : List Link) (sched : List Nat)
    (h : ∀ i, i < links.length → i ∈ sched) :
    poolMap f links sched = links.map f := by
  unfold poolMap gatherPool
  apply List.ext_get
  · simp
  · intro n h1 h2
    have hn : n < links.length := by simpa using h1
    simp only [List.get_map, List.get_range]
    rw [execSched_apply]
    rw [if_pos (h n hn)]
    rw [List.get?_eq_get hn]
    simp

/-- The trace shape the circuit policy yields: blocks of one rotation, one
session rebuild and one pool dispatch, one block per album. -/
def rotatedPerAlbum : List Event → Bool
  | [] => true
  | Event.rotate :: Event.newSession :: Event.dispatchPool _ _ :: rest => rotatedPerAlbum rest
  | _ => false

/-- Number of circuit rotations in a trace. -/
def countRotate (tr : List Event) : Nat :=
  tr.count Event.rotate

/-- Number of pool dispatches in a trace. -/
def countPool (tr : List Event) : Nat :=
  (tr.filter (fun e => match e with | Event.dispatchPool _ _ => true | _ => false)).length

theorem get_lyrics_albums_rotation {μ : Type} (A : Adapter μ) (tc : TorController) (cp : Nat)
    (sched : Nat → List Nat) (artist : String) (song : Option String)
    (hcp : tc.controlport = some cp) :
    ∀ (markers : List μ) (k : Nat) (bound : Option String) (albs : List Album) (tr : List Event),
      get_lyrics_albums A (some tc) sched artist song markers k bound = .ok (albs, tr) →
      rotatedPerAlbum tr = true ∧ countRotate tr = albs.length ∧ countPool tr = albs.length := by
  intro markers
  induction markers with
  | nil =>
    intro k bound albs tr h
    simp only [get_lyrics_albums] at h
    cases h
    simp [rotatedPerAlbum, countRotate, countPool]
  | cons m rest ih =>
    intro k bound albs tr h
    simp only [get_lyrics_albums] at h
    cases hinfo : A.get_album_infos m with
    | error e =>
      rw [hinfo] at h
      cases e <;> simp_all
      · cases bound with
        | none => exact absurd h (by simp)
        | some t => exact ih (k + 1) (some t) albs tr h
    | ok p =>
      obtain ⟨title, rel⟩ := p
      rw [hinfo] at h
      simp only [hcp] at h
      cases hrec : get_lyrics_albums A (some tc) sched artist song rest (k + 1) (some title) with
      | error e =>
        rw [hrec] at h
        exact absurd h (by simp)
      | ok q =>
        obtain ⟨albs2, tr2⟩ := q
        rw [hrec] at h
        obtain ⟨h1, h2⟩ := Prod.mk.injEq .. ▸ (Except.ok.inj h)
        obtain ⟨hro, hc1, hc2⟩ := ih (k + 1) (some title) albs2 tr2 hrec
        subst h1
        subst h2
        refine ⟨?_, ?_, ?_⟩
        · simpa [rotatedPerAlbum] using hro
        · simp [countRotate, List.count_cons] at hc1 ⊢
          omega
        · simp [countPool, List.filter] at hc2 ⊢
          omega

theorem get_lyrics_albums_spec {μ : Type} (A : Adapter μ) (tor_controller : Option TorController)
    (sched : Nat → List Nat) (artist : String) (song : Option String)
    (hs : SchedOK A song sched) :
    ∀ (markers : List μ) (k : Nat) (bound : Option String) (albs : List Album) (tr : List Event),
      get_lyrics_albums A tor_controller sched artist song markers k bound = .ok (albs, tr) →
      ∀ alb ∈ albs, ∃ (m : μ) (rel : String),
        A.get_album_infos m = .ok (alb.title, rel) ∧ alb.artist = artist ∧
        alb.songs = (filteredSongLinks A song m).map
          (fun link => A.create_song link artist alb.title) := by
  intro markers
  induction markers with
  | nil =>
    intro k bound albs tr h
    simp only [get_lyrics_albums] at h
    cases h
    intro alb hmem
    exact absurd hmem (by simp)
  | cons m rest ih =>
    intro k bound albs tr h
    simp only [get_lyrics_albums] at h
    cases hinfo : A.get_album_infos m with
    | error e =>
      simp only [hinfo] at h
      cases e <;> simp_all
      cases bound with
      | none => exact absurd h (by simp)
      | some t => exact ih (k + 1) (some t) albs tr h
    | ok p =>
      obtain ⟨title, rel⟩ := p
      simp only [hinfo] at h
      cases hrec : get_lyrics_albums A tor_controller sched artist song rest (k + 1) (some title) with
      | error e =>
        simp [hrec] at h
      | ok q =>
        obtain ⟨albs2, tr2⟩ := q
        simp only [hrec, Except.ok.injEq, Prod.mk.injEq] at h
        obtain ⟨h1, h2⟩ := h
        subst h1
        intro alb hmem
        rcases List.mem_cons.mp hmem with hhd | htl
        · subst hhd
          refine ⟨m, rel, ?_, rfl, ?_⟩
          · simpa [mkAlbum] using hinfo
          · show poolMap (fun link => A.create_song link artist title) (filteredSongLinks A song m) (sched k) = _
            exact poolMap_eq_map _ _ _ (fun i hi => hs m k i hi)
        · exact ih (k + 1) (some title) albs2 tr2 hrec alb htl

theorem get_lyrics_albums_sched_irrelevant {μ : Type} (A : Adapter μ)
    (tor_controller : Option TorController) (artist : String) (song : Option String)
    (sched1 sched2 : Nat → List Nat)
    (h1 : SchedOK A song sched1) (h2 : SchedOK A song sched2) :
    ∀ (markers : List μ) (k : Nat) (bound : Option String),
      get_lyrics_albums A tor_controller sched1 artist song markers k bound =
        get_lyrics_albums A tor_controller sched2 artist song markers k bound := by
  intro markers
  induction markers with
  | nil =>
    intro k bound
    rfl
  | cons m rest ih =>
    intro k bound
    simp only [get_lyrics_albums]
    cases hinfo : A.get_album_infos m with
    | error e =>
      cases e <;> simp_all
    | ok p =>
      obtain ⟨title, rel⟩ := p
      dsimp only
      rw [poolMap_eq_map _ _ _ (fun i hi => h1 m k i hi),
          poolMap_eq_map _ _ _ (fun i hi => h2 m k i hi), ih (k + 1) (some title)]

theorem filterAlbums_eq {μ : Type} (A : Adapter μ) (f : String) (tfn rfn : μ → String) :
    ∀ (markers : List μ), (∀ m ∈ markers, A.get_album_infos m = .ok (tfn m, rfn m)) →
      filterAlbums A f markers =
        .ok (markers.filter (fun m => pyInB (pyLower f) (pyLower (tfn m)))) := by
  intro markers
  induction markers with
  | nil =>
    intro _
    rfl
  | cons m rest ih =>
    intro h
    have hm : A.get_album_infos m = .ok (tfn m, rfn m) := h m (by simp)
    have hrest := ih (fun x hx => h x (by simp [hx]))
    simp only [filterAlbums, hm, hrest, List.filter]
    by_cases hin : pyInB (pyLower f) (pyLower (tfn m)) = true
    · simp [hin]
    · simp [hin]

/-- A concrete source snapshot used to evaluate the engine: one album
marker (0) titled Alpha with two resolvable songs; every other marker
fails album info extraction with ValueError. -/
def fx : Adapter Nat :=
  ⟨id,
   fun _ => some ("url"),
   fun _ => true,
   fun _ => [0],
   fun m => if m = 0 then Except.ok (("Alpha"), ("2001")) else Except.error PyError.valueError,
   fun _ => [⟨("One"), ("h1")⟩, ⟨("Two"), ("h2")⟩],
   fun link artist title => some ⟨link.text, title, artist, some ("la"), none⟩⟩

/-- A transport that always succeeds with a fixed page. -/
def fxSession : Session := fun _ => .ok ⟨("page")⟩

/-- A transport whose every request raises. -/
def failSession : Session := fun _ => .error PyError.transportError

/-- A tor controller with a configured control channel. -/
def fxTor : TorController := ⟨("127.0.0.1"), 9050, some 9051, ("")⟩

/-- A pool completion schedule finishing the two greenlets in spawn order. -/
def fxSched : Nat → List Nat := fun _ => [0, 1]

/-- A pool completion schedule finishing the greenlets out of order, with a
spurious extra completion index. -/
def fxSched2 : Nat → List Nat := fun _ => [1, 0, 7]

/-- The two songs the fx snapshot resolves for album Alpha of artist X. -/
def fxSong1 : Song := ⟨("One"), ("Alpha"), ("X"), some ("la"), none⟩

/-- Second resolved song of the fx snapshot. -/
def fxSong2 : Song := ⟨("Two"), ("Alpha"), ("X"), some ("la"), none⟩

/-- The album the fx snapshot yields. -/
def fxAlbum : Album := ⟨0, ("Alpha"), ("X"), ("2001"), [some fxSong1, some fxSong2]⟩

/-- The discography the fx snapshot yields for artist X. -/
def fxDisc : Discography := ⟨0, ("X"), [fxAlbum]⟩

/-- The event trace of the fx run under the rotation-configured controller. -/
def fxTrace : List Event := [Event.rotate, Event.newSession, Event.dispatchPool ("Alpha") 2]

theorem fx_schedok : SchedOK fx none fxSched := by
  intro m k i hi
  simp [filteredSongLinks, fx] at hi
  simp [fxSched]
  omega

theorem fx_schedok2 : SchedOK fx none fxSched2 := by
  intro m k i hi
  simp [filteredSongLinks, fx] at hi
  simp [fxSched2]
  omega

/-- Variant of fx whose adapter cannot build an artist url. -/
def fxNoUrl : Adapter Nat :=
  ⟨id, fun _ => none, fun _ => true, fun _ => [0],
   fun _ => Except.ok (("Alpha"), ("2001")), fun _ => [], fun _ _ _ => none⟩

/-- Variant of fx whose artist presence predicate rejects every page. -/
def fxNoArtist : Adapter Nat :=
  ⟨id, fun _ => some ("url"), fun _ => false, fun _ => [0],
   fun _ => Except.ok (("Alpha"), ("2001")), fun _ => [], fun _ _ _ => none⟩

/-- Claim C1.  The artist-resolution path of get_lyrics: when the adapter
builds no url, or the presence check fails, the call returns None; but when
the artist page fetch itself fails (get_page returns None after catching
the transport error), get_artist_page evaluates None.data and the resulting
AttributeError escapes get_lyrics instead of a None return.  The first two
conjuncts evaluate the two anticipated-null paths, the last two evaluate
the fetch-failure path at a transport that raises on every request. -/
theorem c1_artist_fetch_failure_raises :
    get_lyrics fxNoUrl none fxSession fxSched ("X") none none = .ok none ∧
    get_lyrics fxNoArtist none fxSession fxSched ("X") none none = .ok none ∧
    get_artist_page fx failSession ("X") = .error PyError.attributeError ∧
    get_lyrics fx none failSession fxSched ("X") none none = .error PyError.attributeError :=
  ⟨rfl, rfl, rfl, rfl⟩

/-- Snapshot whose first album marker fails info extraction with ValueError
while the second succeeds. -/
def fx3 : Adapter Nat :=
  ⟨id, fun _ => some ("url"), fun _ => true, fun _ => [0, 1],
   fun m => if m = 0 then Except.error PyError.valueError else Except.ok (("Beta"), ("1999")),
   fun _ => [], fun _ _ _ => none⟩

/-- Snapshot whose second album marker fails info extraction with
ValueError while the first succeeds. -/
def fx3b : Adapter Nat :=
  ⟨id, fun _ => some ("url"), fun _ => true, fun _ => [0, 1],
   fun m => if m = 0 then Except.ok (("Alpha"), ("2001")) else Except.error PyError.valueError,
   fun _ => [], fun _ _ _ => none⟩

/-- Claim C3.  When the FIRST album marker fails extraction, the except
ValueError handler prints the local album_title, which no iteration has
bound yet, so get_lyrics aborts with UnboundLocalError instead of skipping
the album; when a LATER marker fails, the title bound by the earlier
iteration makes the handler succeed and the album is skipped as claimed,
the remaining albums surviving. -/
theorem c3_first_album_failure_aborts :
    get_lyrics fx3 none fxSession fxSched ("X") none none = .error PyError.unboundLocalError ∧
    get_lyrics fx3b none fxSession fxSched ("X") none none =
      .ok (some (⟨0, ("X"), [⟨0, ("Alpha"), ("X"), ("2001"), []⟩]⟩,
                 [Event.dispatchPool ("Alpha") 0])) :=
  ⟨rfl, rfl⟩

/-- Claim C4.  AzLyrics.get_album_infos raises IndexError (not the caught
ValueError) when the block text holds no parenthesised release date, and
LyricWiki.get_album_infos likewise raises IndexError on a text that holds
a space-lparen but no completed parenthesised group: neither falls back to
Unknown on these inputs. -/
theorem c4_missing_release_date_raises :
    az_get_album_infos ⟨some ("album: \"Thriller\""), ("MCMLXXXII")⟩ = .error PyError.indexError ∧
    wiki_get_album_infos ⟨("Highway 61 Revisited (")⟩ = .error PyError.indexError :=
  ⟨rfl, rfl⟩

/-- Claim C7.  get_page never propagates an error: it yields a response
exactly when the transport does and None exactly when the transport
raises. -/
theorem c7_get_page_never_raises (session : Session) (url : String) :
    (∀ e, get_page session url ≠ .error e) ∧
    (get_page session url = .ok none ↔ ∃ e, session url = .error e) ∧
    (∀ r, get_page session url = .ok (some r) ↔ session url = .ok r) := by
  cases h : session url <;> simp [get_page, h]

/-- Claim C9.  On a freshly constructed Album, reversed(album) is exactly
the reverse of the sequence the forward iterator protocol yields from
album.songs; likewise for Discography and its albums. -/
theorem c9_reversed_iteration_law (title artist release_date : String)
    (songs : List (Option Song)) (dartist : String) (albums : List Album) :
    albumReversed (mkAlbum title artist songs release_date) =
      (albumIter (mkAlbum title artist songs release_date)).reverse ∧
    discReversed (mkDiscography dartist albums) =
      (discIter (mkDiscography dartist albums)).reverse := by
  constructor
  · show songs.reverse = (iterLoop songs (songs.length + 1) 0).reverse
    rw [iterLoop_eq_drop songs (songs.length + 1) 0 (by omega), List.drop_zero]
  · show albums.reverse = (iterLoop albums (albums.length + 1) 0).reverse
    rw [iterLoop_eq_drop albums (albums.length + 1) 0 (by omega), List.drop_zero]

/-- Claim C10.  Discography.__setitem__ raises TypeError for every Album
value at every index, leaving the albums list unchanged (the raise happens
before any write), and an assignment can only succeed for a Song value. -/
theorem c10_disc_setitem_rejects_album (d : Discography) (key : Int) (v : Album) :
    (discSetitem d key (PyVal.albumV v)).1 = .error PyError.typeError ∧
    (discSetitem d key (PyVal.albumV v)).2 = d.albums.map PyVal.albumV ∧
    ∀ (w : PyVal) (l : List PyVal), discSetitem d key w = (.ok (), l) → ∃ s, w = PyVal.songV s := by
  refine ⟨rfl, rfl, ?_⟩
  intro w l hw
  cases w with
  | songV s => exact ⟨s, rfl⟩
  | albumV a => simp [discSetitem] at hw

theorem get_lyrics_ok_elim {μ : Type} (A : Adapter μ) (tor_controller : Option TorController)
    (session : Session) (sched : Nat → List Nat) (artist : String) (album song : Option String)
    (d : Discography) (tr : List Event)
    (h : get_lyrics A tor_controller session sched artist album song = .ok (some (d, tr))) :
    ∃ (kept : List μ),
      get_lyrics_albums A tor_controller sched artist song kept 0 none = .ok (d.albums, tr) ∧
      d = mkDiscography artist d.albums := by
  simp only [get_lyrics] at h
  cases hap : get_artist_page A session artist with
  | error e => simp [hap] at h
  | ok o =>
    cases o with
    | none => simp [hap] at h
    | some raw =>
      simp only [hap] at h
      cases album with
      | none =>
        cases hloop : get_lyrics_albums A tor_controller sched artist song (A.get_albums raw) 0 none with
        | error e => simp [hloop] at h
        | ok q =>
          obtain ⟨albs, tr2⟩ := q
          simp only [hloop, Except.ok.injEq, Option.some.injEq, Prod.mk.injEq] at h
          obtain ⟨h1, h2⟩ := h
          subst h2
          subst h1
          exact ⟨A.get_albums raw, hloop, rfl⟩
      | some f =>
        cases hfil : filterAlbums A f (A.get_albums raw) with
        | error e => simp [hfil] at h
        | ok kept =>
          simp only [hfil] at h
          cases hloop : get_lyrics_albums A tor_controller sched artist song kept 0 none with
          | error e => simp [hloop] at h
          | ok q =>
            obtain ⟨albs, tr2⟩ := q
            simp only [hloop, Except.ok.injEq, Option.some.injEq, Prod.mk.injEq] at h
            obtain ⟨h1, h2⟩ := h
            subst h2
            subst h1
            exact ⟨kept, hloop, rfl⟩

/-- Claim C2 counterexample.  A concrete run against the fx snapshot with
a tor controller whose control channel is configured: the circuit is
rotated and the session rebuilt before the album, yet the album is still
dispatched through the worker pool (the dispatchPool event is in the
trace), refuting that songs are fetched serially with no concurrent pool
and that the pool is used only when rotation is not configured. -/
theorem c2_pool_used_despite_rotation :
    fxTor.controlport = some 9051 ∧
    get_lyrics fx (some fxTor) fxSession fxSched ("X") none none = .ok (some (fxDisc, fxTrace)) ∧
    Event.dispatchPool ("Alpha") 2 ∈ fxTrace :=
  ⟨rfl, rfl, by decide⟩

/-- Claim C2 as amended.  Whenever a tor controller with a configured
control channel is active, get_lyrics rotates the circuit exactly once per
album, immediately followed by the session rebuild and then that album's
dispatch; but every album's songs are still dispatched through the worker
pool (one pool dispatch per album), rotation configured or not. -/
theorem c2_rotation_once_per_album_before_dispatch {μ : Type} (A : Adapter μ)
    (tc : TorController) (cp : Nat) (session : Session) (sched : Nat → List Nat)
    (artist : String) (album song : Option String) (d : Discography) (tr : List Event)
    (hcp : tc.controlport = some cp)
    (h : get_lyrics A (some tc) session sched artist album song = .ok (some (d, tr))) :
    rotatedPerAlbum tr = true ∧
    countRotate tr = d.albums.length ∧
    countPool tr = d.albums.length := by
  obtain ⟨kept, hloop, _⟩ := get_lyrics_ok_elim A (some tc) session sched artist album song d tr h
  exact get_lyrics_albums_rotation A tc cp sched artist song hcp kept 0 none d.albums tr hloop

/-- Claim C2 witness: the amended statement evaluated on the fx snapshot. -/
theorem c2_rotation_once_per_album_witness :
    rotatedPerAlbum fxTrace = true ∧
    countRotate fxTrace = fxDisc.albums.length ∧
    countPool fxTrace = fxDisc.albums.length :=
  c2_rotation_once_per_album_before_dispatch fx fxTor 9051 fxSession fxSched ("X") none none
    fxDisc fxTrace rfl rfl

/-- Claim C5.  Every album that a successful get_lyrics run constructs has
as many song entries as the song-link markers enumerated for its marker
after the song filter, and its songs sequence is exactly the per-link fetch
results in original link order, a None kept in place wherever the fetch
returned None; the schedule hypothesis models pool.join having waited for
every spawned greenlet. -/
theorem c5_album_length_and_order {μ : Type} (A : Adapter μ)
    (tor_controller : Option TorController) (session : Session) (sched : Nat → List Nat)
    (artist : String) (album song : Option String) (d : Discography) (tr : List Event)
    (hs : SchedOK A song sched)
    (h : get_lyrics A tor_controller session sched artist album song = .ok (some (d, tr))) :
    ∀ alb ∈ d.albums, ∃ (m : μ),
      alb.songs.length = (filteredSongLinks A song m).length ∧
      alb.songs = (filteredSongLinks A song m).map
        (fun link => A.create_song link artist alb.title) ∧
      ∀ (i : Nat) (hi : i < (filteredSongLinks A song m).length),
        alb.songs.get? i =
          some (A.create_song ((filteredSongLinks A song m).get ⟨i, hi⟩) artist alb.title) := by
  obtain ⟨kept, hloop, _⟩ :=
    get_lyrics_ok_elim A tor_controller session sched artist album song d tr h
  intro alb hmem
  obtain ⟨m, rel, _, _, hsongs⟩ :=
    get_lyrics_albums_spec A tor_controller sched artist song hs kept 0 none d.albums tr hloop alb hmem
  refine ⟨m, ?_, hsongs, ?_⟩
  · rw [hsongs, List.length_map]
  · intro i hi
    rw [hsongs, List.get?_map, List.get?_eq_get hi]
    rfl

/-- Claim C5 witness: the fx snapshot run, at its one constructed album. -/
theorem c5_album_length_and_order_witness :
    ∃ (m : Nat),
      fxAlbum.songs.length = (filteredSongLinks fx none m).length ∧
      fxAlbum.songs = (filteredSongLinks fx none m).map
        (fun link => fx.create_song link ("X") fxAlbum.title) ∧
      ∀ (i : Nat) (hi : i < (filteredSongLinks fx none m).length),
        fxAlbum.songs.get? i =
          some (fx.create_song ((filteredSongLinks fx none m).get ⟨i, hi⟩) ("X") fxAlbum.title) :=
  c5_album_length_and_order fx (some fxTor) fxSession fxSched ("X") none none fxDisc fxTrace
    fx_schedok rfl fxAlbum (by simp [fxDisc])

/-- Claim C6.  The album filter keeps exactly the markers whose extracted
title contains the lowercased filter as a substring of the lowercased
title, and the song filter keeps exactly the links whose visible text
contains the lowercased filter as a substring of the lowercased text. -/
theorem c6_filters_case_insensitive_substring {μ : Type} (A : Adapter μ) (f : String)
    (markers : List μ) (tfn rfn : μ → String)
    (h : ∀ m ∈ markers, A.get_album_infos m = .ok (tfn m, rfn m)) :
    (∃ kept, filterAlbums A f markers = .ok kept ∧
      ∀ m, m ∈ kept ↔ m ∈ markers ∧ pyIn (pyLower f) (pyLower (tfn m))) ∧
    ∀ (sf : String) (mk : μ) (link : Link),
      link ∈ filteredSongLinks A (some sf) mk ↔
        link ∈ A.get_songs mk ∧ pyIn (pyLower sf) (pyLower link.text) := by
  constructor
  · refine ⟨markers.filter (fun m => pyInB (pyLower f) (pyLower (tfn m))),
      filterAlbums_eq A f tfn rfn markers h, ?_⟩
    intro m
    rw [List.mem_filter]
    simp [pyInB]
  · intro sf mk link
    show link ∈ (A.get_songs mk).filter (fun l => pyInB (pyLower sf) (pyLower l.text)) ↔ _
    rw [List.mem_filter]
    simp [pyInB]

/-- Claim C6 witness: the filters evaluated on the fx snapshot. -/
theorem c6_filters_witness :
    (∃ kept, filterAlbums fx ("alph") [0] = .ok kept ∧
      ∀ m, m ∈ kept ↔ m ∈ [0] ∧ pyIn (pyLower ("alph")) (pyLower ("Alpha"))) ∧
    ∀ (sf : String) (mk : Nat) (link : Link),
      link ∈ filteredSongLinks fx (some sf) mk ↔
        link ∈ fx.get_songs mk ∧ pyIn (pyLower sf) (pyLower link.text) :=
  c6_filters_case_insensitive_substring fx ("alph") [0]
    (fun _ => ("Alpha")) (fun _ => ("2001"))
    (by intro m hm; simp only [List.mem_singleton] at hm; subst hm; rfl)

/-- Claim C8.  Against a fixed snapshot (fixed adapter, transport and
controller) get_lyrics is a function of its arguments alone: two runs whose
pool completion schedules differ (each adequate, modelling two executions
of the nondeterministic pool) return identical results, hence structurally
equal Discography trees with the same titles and None positions. -/
theorem c8_get_lyrics_deterministic {μ : Type} (A : Adapter μ)
    (tor_controller : Option TorController) (session : Session) (artist : String)
    (album song : Option String) (sched1 sched2 : Nat → List Nat)
    (h1 : SchedOK A song sched1) (h2 : SchedOK A song sched2) :
    get_lyrics A tor_controller session sched1 artist album song =
      get_lyrics A tor_controller session sched2 artist album song := by
  simp only [get_lyrics]
  cases get_artist_page A session artist with
  | error e => rfl
  | ok o =>
    cases o with
    | none => rfl
    | some raw =>
      dsimp only
      cases album with
      | none =>
        dsimp only
        rw [get_lyrics_albums_sched_irrelevant A tor_controller artist song sched1 sched2 h1 h2]
      | some f =>
        dsimp only
        cases hfil : filterAlbums A f (A.get_albums raw) with
        | error e => rfl
        | ok kept =>
          dsimp only
          rw [get_lyrics_albums_sched_irrelevant A tor_controller artist song sched1 sched2 h1 h2]

/-- Claim C8 witness: the fx snapshot run under two different adequate
schedules. -/
theorem c8_get_lyrics_deterministic_witness :
    get_lyrics fx (some fxTor) fxSession fxSched ("X") none none =
      get_lyrics fx (some fxTor) fxSession fxSched2 ("X") none none :=
  c8_get_lyrics_deterministic fx (some fxTor) fxSession ("X") none none fxSched fxSched2
    fx_schedok fx_schedok2
